import Mathlib

/-!
Verification of the gopenrouter SDK (Go): shallow embedding of the SSE
streaming reader (`streaming.go`), the error-classification logic
(`client.go` / `errors.go`) and the synchronous entry points
(`chat.go`, `completion.go`), with theorems settling the frozen claims.

Modelling conventions:
* Go strings are Lean `String`; machine integers are `Int`/`Nat` (no values
  near overflow occur in the modelled code paths).
* `bufio.Scanner` over the HTTP response body is modelled by a `ReaderState`:
  `buffered` are the lines the scanner has already read from the body into its
  internal buffer, `body` is the rest of the body, partitioned into the
  batches of lines that successive `Read` calls deliver; `bodyErr` is the
  error (if any) that ends the body instead of clean EOF; `closed` records
  whether `Close` was called on the response body; and `scanDone` is the
  scanner's sticky terminal state — once a `Scan` has returned false it has
  set the `done` flag and recorded its error, and every further `Scan`
  reports the same outcome without reading again (`Err()` masks a recorded
  `io.EOF` to nil).  Per Go's `bufio.Scanner` semantics, buffered tokens are
  still returned after the underlying reader starts failing; a `Read` on a
  closed `http.Response.Body` fails with "http: read on closed response
  body".
* `json.Unmarshal(data, &v)` is external (`encoding/json`); it is modelled by
  an explicit parameter `um : UnmarshalFn α` taking the payload and the
  current value of the target and returning the error (if any) together with
  the updated target value — Go's `Unmarshal` writes into the existing value,
  populating the fields it can even when it returns an error.
-/

namespace Gopenrouter

/-- Outcome of one `Recv` call, mirroring the Go return `(T, error)`:
a decoded chunk with `nil` error, the `io.EOF` sentinel, or a non-EOF error
(`fmt.Errorf("error reading stream: %w", err)`). -/
inductive RecvResult (α : Type) where
  | chunk (c : α)
  | eofSignal
  | ioErr (msg : String)
  deriving DecidableEq

/-- Model of `json.Unmarshal` specialised to payload strings and a target
type `α`: given the payload and the current target value, returns the error
(`none` = success) and the updated target value. -/
def UnmarshalFn (α : Type) : Type := String → α → Option String × α

/-- The error message Go's `net/http` produces when reading a response body
after it has been closed. -/
def closedBodyMsg : String := "http: read on closed response body"

/-- Model of Go's `unicode.IsSpace` (the code points of the Unicode
White_Space property, which is what `strings.TrimSpace` cuts). -/
def isGoSpace (c : Char) : Bool :=
  (9 ≤ c.val ∧ c.val ≤ 13) ∨ c.val = 32 ∨ c.val = 0x85 ∨ c.val = 0xA0 ∨
    c.val = 0x1680 ∨ (0x2000 ≤ c.val ∧ c.val ≤ 0x200A) ∨ c.val = 0x2028 ∨
    c.val = 0x2029 ∨ c.val = 0x202F ∨ c.val = 0x205F ∨ c.val = 0x3000

/-- Model of `strings.TrimSpace`: drop leading and trailing white space. -/
def goTrimSpace (s : String) : String :=
  ⟨((s.data.dropWhile isGoSpace).reverse.dropWhile isGoSpace).reverse⟩

/-- Character-list core of `strings.HasPrefix`. -/
def startsWithChars : List Char → List Char → Bool
  | _, [] => true
  | [], _ :: _ => false
  | c :: s, p :: ps => c = p && startsWithChars s ps

/-- Model of `strings.HasPrefix`. -/
def goStartsWith (s pre : String) : Bool :=
  startsWithChars s.data pre.data

/-- Model of `strings.TrimPrefix`. -/
def goStripPre (s pre : String) : String :=
  if goStartsWith s pre then ⟨s.data.drop pre.data.length⟩ else s

/-- State of a stream reader (`CompletionStreamReader` /
`ChatCompletionStreamReader`, streaming.go lines 66-93): the scanner's
buffered lines, the body's remaining line batches (one batch per underlying
`Read`), the error terminating the body (if any), whether the response body
has been closed, and the scanner's sticky terminal state `scanDone` —
`none` while the scanner is still scanning, `some none` once it has
finished at a clean EOF (`done` set, recorded error `io.EOF`, so `Err()`
returns nil), and `some (some e)` once it has finished with the read error
`e` (`Err()` returns `e`).  Once set, `scanDone` makes every further `Scan`
report the same outcome without touching the body again. -/
structure ReaderState where
  buffered : List String
  body : List (List String)
  bodyErr : Option String
  closed : Bool
  scanDone : Option (Option String)
  deriving DecidableEq

/-- The lines still observable through the scanner while the body is open. -/
def ReaderState.lines (s : ReaderState) : List String :=
  s.buffered ++ s.body.flatten

/-- Model of `NewCompletionStreamReader` / `NewChatCompletionStreamReader`
(streaming.go lines 80-93): a fresh scanner over the given body. -/
def freshReader (body : List (List String)) (bodyErr : Option String) : ReaderState :=
  ⟨[], body, bodyErr, false, none⟩

/-- Model of `Close` (streaming.go lines 135-140 and 182-187): closes the
underlying response body and returns its (nil) error. -/
def ReaderState.closeReader (s : ReaderState) : Option String × ReaderState :=
  (none, { s with closed := true })

/-- The wrapping `fmt.Errorf("error reading stream: %w", err)` applied by
`Recv` to a non-nil scanner error. -/
def streamWrap (e : String) : String := "error reading stream: " ++ e

/-- Outcome of running the `Recv` loop body over the lines currently in the
scanner's buffer: either the loop returned (`yield`, with the lines left in
the buffer), or the buffer ran dry and the scanner must refill from the body
(`more`, with the current value of the `response` accumulator). -/
inductive BufOut (α : Type) where
  | yield (r : RecvResult α) (buf : List String)
  | more (acc : α)
  deriving DecidableEq

/-- The line-classification loop body shared verbatim by
`CompletionStreamReader.Recv` (streaming.go lines 96-132) and
`ChatCompletionStreamReader.Recv` (lines 143-179), run over the lines in the
scanner's buffer; the two Go methods are textually identical up to the target
chunk type, so they are embedded once, parameterized by the unmarshal
behaviour `um`.  `acc` is the `response` variable declared at the top of
`Recv` — declared once per call and reused across loop iterations, exactly as
in the Go source. -/
def recvBuf (um : UnmarshalFn α) : α → List String → BufOut α
  | acc, [] => .more acc
  | acc, raw :: buf =>
    let line := goTrimSpace raw
    if line = "" ∨ goStartsWith line ":" then
      recvBuf um acc buf
    else if goStartsWith line "data: " then
      let data := goStripPre line "data: "
      if data = "[DONE]" then
        .yield .eofSignal buf
      else
        match um data acc with
        | (some _, acc') => recvBuf um acc' buf
        | (none, acc') => .yield (.chunk acc') buf
    else
      recvBuf um acc buf

/-- Continuation of the `Recv` loop across scanner refills while the body is
open and the scanner not yet finished: each `Read` delivers the next batch
of lines into the buffer; when the body is exhausted the scanner finishes —
it sets `done`, records its error, and `r.reader.Err()` distinguishes a
clean EOF (`Recv` returns `io.EOF`, recorded state `some none`) from an
underlying read error (`Recv` returns the wrapped error, recorded state
`some (some e)`).  Returns the Go return value, the lines left in the
buffer, the body batches left, and the recorded terminal state (if the
scanner finished on this call). -/
def recvBody (um : UnmarshalFn α) (be : Option String) :
    α → List (List String) →
    RecvResult α × List String × List (List String) × Option (Option String)
  | _, [] =>
    match be with
    | none => (.eofSignal, [], [], some none)
    | some e => (.ioErr (streamWrap e), [], [], some (some e))
  | acc, b :: more =>
    match recvBuf um acc b with
    | .yield r buf => (r, buf, more, none)
    | .more acc' => recvBody um be acc' more

/-- The complete `Recv` loop.  `Scan` first returns false if the scanner
has already finished (its `done` flag), then looks for a token in its
buffer, then refills; since `done` is only ever set once the buffer holds no
further token, draining the buffer before consulting the terminal state is
equivalent on every reachable scanner state, and the model drains the buffer
first.  With the buffer dry: a scanner that already finished reports its
recorded outcome again — `io.EOF` after a clean end, the original wrapped
error otherwise — without reading the body; a still-scanning scanner refills,
which on a closed response body fails with `closedBodyMsg` (recorded and
sticky from then on) and on an open body continues through the remaining
read batches. -/
def recvAux (um : UnmarshalFn α) (be : Option String) (cl : Bool)
    (sd : Option (Option String)) (acc : α) (buf : List String)
    (body : List (List String)) :
    RecvResult α × List String × List (List String) × Option (Option String) :=
  match recvBuf um acc buf with
  | .yield r buf' => (r, buf', body, sd)
  | .more acc' =>
    match sd with
    | some none => (.eofSignal, [], body, sd)
    | some (some e) => (.ioErr (streamWrap e), [], body, sd)
    | none =>
      if cl then
        (.ioErr (streamWrap closedBodyMsg), [], body, some (some closedBodyMsg))
      else
        recvBody um be acc' body

/-- One `Recv` call on a reader state: runs the loop with the `response`
accumulator freshly zero-valued (`var response T` in Go) and repackages the
resulting reader state. -/
def recvLoop (um : UnmarshalFn α) (acc : α) (s : ReaderState) :
    RecvResult α × ReaderState :=
  let r := recvAux um s.bodyErr s.closed s.scanDone acc s.buffered s.body
  (r.1, ⟨r.2.1, r.2.2.1, s.bodyErr, s.closed, r.2.2.2⟩)

/-- `n` successive `Recv` calls, each starting from the zero value `zero`
of the chunk type, collecting the returned values. -/
def recvN (um : UnmarshalFn α) (zero : α) : Nat → ReaderState → List (RecvResult α)
  | 0, _ => []
  | n + 1, s =>
    (recvLoop um zero s).1 :: recvN um zero n (recvLoop um zero s).2

/-- Pure counterpart of the loop, acting on the flat list of remaining lines;
used to reason about open (unclosed) readers independently of how the body
is partitioned into reads. -/
def recvPure (um : UnmarshalFn α) : α → List String → Option String →
    RecvResult α × List String
  | _, [], none => (.eofSignal, [])
  | _, [], some e => (.ioErr (streamWrap e), [])
  | acc, raw :: rest, be =>
    let line := goTrimSpace raw
    if line = "" ∨ goStartsWith line ":" then
      recvPure um acc rest be
    else if goStartsWith line "data: " then
      let data := goStripPre line "data: "
      if data = "[DONE]" then
        (.eofSignal, rest)
      else
        match um data acc with
        | (some _, acc') => recvPure um acc' rest be
        | (none, acc') => (.chunk acc', rest)
    else
      recvPure um acc rest be

/-- Pure counterpart of `recvN`. -/
def recvNPure (um : UnmarshalFn α) (zero : α) :
    Nat → List String → Option String → List (RecvResult α)
  | 0, _, _ => []
  | n + 1, ls, be =>
    (recvPure um zero ls be).1 :: recvNPure um zero n (recvPure um zero ls be).2 be

/-- A reader state whose scanner buffer carries `raw` in front of the lines
of `s`. -/
def consLine (raw : String) (s : ReaderState) : ReaderState :=
  { s with buffered := raw :: s.buffered }

/-- The payload a `data: ` line carries: the trimmed line with the prefix
stripped. -/
def dataPayload (raw : String) : String :=
  goStripPre (goTrimSpace raw) "data: "

/-- A line `Recv` silently skips: blank after trimming, an SSE comment, or
any non-`data: ` field line. -/
def isSkipLine (raw : String) : Bool :=
  goTrimSpace raw = "" || goStartsWith (goTrimSpace raw) ":" ||
    !goStartsWith (goTrimSpace raw) "data: "

/-- A blank line or an SSE comment line. -/
def isCommentOrBlank (raw : String) : Bool :=
  goTrimSpace raw = "" || goStartsWith (goTrimSpace raw) ":"

/-- A well-formed data line relative to the unmarshal behaviour `um` and the
zero value the `response` accumulator holds at the start of a `Recv` call:
a `data: ` line whose payload is not the terminator and decodes without
error. -/
def isGoodData (um : UnmarshalFn α) (zero : α) (raw : String) : Bool :=
  goStartsWith (goTrimSpace raw) "data: " && !(dataPayload raw == "[DONE]") &&
    ((um (dataPayload raw) zero).1 == none)

/-- The chunks the well-formed data lines of `ls` decode to, one per line,
each decoded from the zero value. -/
def expectedChunks (um : UnmarshalFn α) (zero : α) (ls : List String) : List α :=
  ls.filterMap fun l =>
    if isGoodData um zero l then some (um (dataPayload l) zero).2 else none

/-- `StreamingChoice` (streaming.go lines 14-20). -/
structure StreamingChoice where
  index : Int
  text : String
  finishReason : Option String
  nativeFinishReason : Option String
  logprobs : Option String
  deriving DecidableEq

/-- `PromptTokensDetails` (completion.go lines 165-168). -/
structure PromptTokensDetails where
  cachedTokens : Int
  deriving DecidableEq

/-- `CompletionTokensDetails` (completion.go). -/
structure CompletionTokensDetails where
  reasoningTokens : Int
  deriving DecidableEq

/-- `Usage` (completion.go lines 151-162). -/
structure Usage where
  promptTokens : Int
  completionTokens : Int
  totalTokens : Int
  promptTokensDetails : Option PromptTokensDetails
  completionTokensDetails : Option CompletionTokensDetails
  deriving DecidableEq

/-- `CompletionStreamResponse` (streaming.go lines 36-45). -/
structure CompletionStreamResponse where
  id : String
  provider : String
  model : String
  object : String
  created : Int
  choices : List StreamingChoice
  systemFingerprint : Option String
  usage : Option Usage
  deriving DecidableEq

/-- `ChatDelta` (streaming.go lines 30-33). -/
structure ChatDelta where
  role : Option String
  content : Option String
  deriving DecidableEq

/-- `ChatStreamingChoice` (streaming.go lines 23-27). -/
structure ChatStreamingChoice where
  index : Int
  delta : ChatDelta
  finishReason : Option String
  deriving DecidableEq

/-- `ChatCompletionStreamResponse` (streaming.go lines 48-55). -/
structure ChatCompletionStreamResponse where
  id : String
  object : String
  created : Int
  model : String
  choices : List ChatStreamingChoice
  usage : Option Usage
  deriving DecidableEq

/-- The Go zero value of `CompletionStreamResponse` (what `var response
CompletionStreamResponse` declares at the top of `Recv`). -/
def zeroCompletionStreamResponse : CompletionStreamResponse :=
  ⟨"", "", "", "", 0, [], none, none⟩

/-- The Go zero value of `ChatCompletionStreamResponse`. -/
def zeroChatCompletionStreamResponse : ChatCompletionStreamResponse :=
  ⟨"", "", 0, "", [], none⟩

/-- A small concrete unmarshal behaviour on `Nat` chunks used to instantiate
the generic theorems on explicit inputs: the payloads "one" and "two" stand
for JSON chunk documents decoding to the values 1 and 2, every other payload
for a malformed document. -/
def um0 : UnmarshalFn Nat := fun p n =>
  if p = "one" then (none, 1)
  else if p = "two" then (none, 2)
  else (some "invalid character", n)

/-- A concrete unmarshal behaviour exhibiting the documented
`encoding/json.Unmarshal` semantics on two specific documents:
"chunk-partial-bad" stands for a syntactically valid JSON object whose `id`
key holds "evil" and whose `created` key holds a string — `Unmarshal` sets
the `ID` field of the existing target, then reports an
`UnmarshalTypeError` for `created` ("Unmarshal ... completes the
unmarshaling as best it can", populating the fields it could);
"chunk-model-only" stands for an object with only a `model` key — a
successful `Unmarshal` sets `Model` and leaves every other field of the
existing target untouched.  Any other payload is malformed and leaves the
target unchanged. -/
def um7 : UnmarshalFn CompletionStreamResponse := fun p r =>
  if p = "chunk-partial-bad" then
    (some "json: cannot unmarshal string into Go struct field created", { r with id := "evil" })
  else if p = "chunk-model-only" then
    (none, { r with model := "m" })
  else
    (some "invalid character", r)

/-- A reader state with `junk` lines buffered in front of the lines of `s`. -/
def prependLines (junk : List String) (s : ReaderState) : ReaderState :=
  { s with buffered := junk ++ s.buffered }

/-- `APIError` (errors.go lines 11-15): the structured error the service
returns; the `map[string]any` metadata is modelled as a key/value list. -/
structure APIError where
  code : Int
  message : String
  metadata : List (String × String)
  deriving DecidableEq

/-- `ErrorResponse` (errors.go lines 25-27): the error envelope. -/
structure ErrorResponse where
  error : Option APIError
  deriving DecidableEq

/-- `RequestError` (errors.go lines 18-23).  Its `Err` field (a Go `error`)
holds either the unmarshal error or — when the envelope parsed partially —
the populated `APIError`. -/
structure RequestError where
  httpStatus : String
  httpStatusCode : Nat
  err : Option (String ⊕ APIError)
  body : String
  deriving DecidableEq

/-- The error values the modelled client paths return. -/
inductive GoError where
  | apiErr (e : APIError)
  | reqErr (e : RequestError)
  | readBodyErr (msg : String)
  | sentinelErr (msg : String)
  deriving DecidableEq

/-- `ErrCompletionStreamNotSupported` (errors.go line 8). -/
def errCompletionStreamNotSupported : GoError :=
  .sentinelErr "streaming is not supported with this method"

/-- The parts of an `http.Response` the modelled code inspects: the status
line, the numeric status code, the outcome of `io.ReadAll` on the body, and
— for the streaming path — the body as the line scanner would deliver it
(read batches plus terminating error). -/
structure ModelResponse where
  status : String
  statusCode : Nat
  readAll : Except String String
  streamReads : List (List String)
  streamErr : Option String

/-- Model of `Client.handleErrorResp` (client.go lines 222-243): read the
body fully (a read failure is wrapped as "error, reading response body:");
unmarshal the bytes into a fresh `ErrorResponse`; if the unmarshal failed or
left the `Error` field nil, return a `RequestError` carrying the raw status,
status code and body (with `Err` the partially-populated `APIError` when
there is one, else the unmarshal error); otherwise return the `APIError`
itself. -/
def handleErrorResp (um : UnmarshalFn ErrorResponse) (resp : ModelResponse) : GoError :=
  match resp.readAll with
  | .error e => .readBodyErr ("error, reading response body: " ++ e)
  | .ok body =>
    match um body ⟨none⟩ with
    | (some e, errRes) =>
      .reqErr ⟨resp.status, resp.statusCode,
        (match errRes.error with
         | some a => some (.inr a)
         | none => some (.inl e)), body⟩
    | (none, ⟨none⟩) => .reqErr ⟨resp.status, resp.statusCode, none, body⟩
    | (none, ⟨some a⟩) => .apiErr a

/-- Model of the response-handling tail of `Client.CompletionStream`
(streaming.go lines 240-251).  `http.StatusOK` is 200 and
`http.StatusBadRequest` is 400: a status below 200 or at/above 400 is
handled by `handleErrorResp` after releasing the body, anything else gets a
fresh `CompletionStreamReader` over the response body. -/
def completionStreamInit (um : UnmarshalFn ErrorResponse) (resp : ModelResponse) :
    Except GoError ReaderState :=
  if resp.statusCode < 200 ∨ 400 ≤ resp.statusCode then
    .error (handleErrorResp um resp)
  else
    .ok (freshReader resp.streamReads resp.streamErr)

/-- Model of the response-handling tail of `Client.ChatCompletionStream`
(streaming.go lines 305-316), textually identical to the completion
variant. -/
def chatCompletionStreamInit (um : UnmarshalFn ErrorResponse) (resp : ModelResponse) :
    Except GoError ReaderState :=
  if resp.statusCode < 200 ∨ 400 ≤ resp.statusCode then
    .error (handleErrorResp um resp)
  else
    .ok (freshReader resp.streamReads resp.streamErr)

/-- An error-envelope unmarshal behaviour for concrete scenarios: no body
parses as an envelope. -/
def umErrNone : UnmarshalFn ErrorResponse := fun _ r =>
  (some "invalid character", r)

/-- An error-envelope unmarshal behaviour for concrete scenarios: the body
"err-body" stands for a JSON envelope decoding to an `APIError` with code
402 and message "Insufficient credits"; anything else is malformed. -/
def umErrOk : UnmarshalFn ErrorResponse := fun b r =>
  if b = "err-body" then (none, ⟨some ⟨402, "Insufficient credits", []⟩⟩)
  else (some "invalid character", r)

/-- The parts of `Client` (client.go lines 15-30) the header logic reads. -/
structure Client where
  apiKey : String
  siteURL : String
  siteTitle : String
  deriving DecidableEq

/-- HTTP headers as an ordered key/value list (header keys used by the
modelled code are already in canonical form). -/
abbrev Headers := List (String × String)

/-- Model of `http.Header.Set`: replace any existing values for the key. -/
def headerSet (h : Headers) (k v : String) : Headers :=
  (h.filter fun kv => !(kv.1 == k)) ++ [(k, v)]

/-- Model of `http.Header.Get`: the value stored for the key, or `""`. -/
def headerGet (h : Headers) (k : String) : String :=
  match h.find? (fun kv => kv.1 == k) with
  | some kv => kv.2
  | none => ""

/-- Model of `Client.setCommonHeaders` (client.go lines 128-142). -/
def setCommonHeaders (c : Client) (h : Headers) : Headers :=
  let h1 := if c.apiKey ≠ "" then headerSet h "Authorization" ("Bearer " ++ c.apiKey) else h
  let h2 := if c.siteURL ≠ "" then headerSet h1 "HTTP-Referer" c.siteURL else h1
  if c.siteTitle ≠ "" then headerSet h2 "X-Title" c.siteTitle else h2

/-- Model of the header pipeline of `Client.newRequest` (client.go lines
144-192) for a JSON-body request with no per-request header option: start
from an empty header set, apply the common headers, and default
`Content-Type` to `application/json` when unset. -/
def newRequestHeaders (c : Client) : Headers :=
  let h := setCommonHeaders c []
  if headerGet h "Content-Type" = "" then
    headerSet h "Content-Type" "application/json"
  else h

/-- `CompletionRequest` (completion.go lines 64-112): only the `Stream`
field is inspected by the operations verified here; the remaining fields
(model, prompt, routing and sampling parameters — several of type `float64`,
which a shallow embedding does not model) ride along opaquely in `rest`. -/
structure CompletionRequest (ρ : Type) where
  stream : Option Bool
  rest : ρ
  deriving DecidableEq

/-- `ChatCompletionRequest` (chat.go lines 15-63), same convention. -/
structure ChatCompletionRequest (ρ : Type) where
  stream : Option Bool
  rest : ρ
  deriving DecidableEq

/-- Model of the request-construction phase of `Client.CompletionStream`
(streaming.go lines 216-238): force `Stream` to true on the (by-value) copy
of the request, build the `newRequest` headers, then set the streaming
headers.  Returns the request value actually serialized and the headers of
the outgoing HTTP request. -/
def completionStreamSentRequest (c : Client) (req : CompletionRequest ρ) :
    CompletionRequest ρ × Headers :=
  let req2 := { req with stream := some true }
  let h1 := newRequestHeaders c
  let h2 := headerSet h1 "Accept" "text/event-stream"
  let h3 := headerSet h2 "Cache-Control" "no-cache"
  (req2, h3)

/-- Model of the request-construction phase of `Client.ChatCompletionStream`
(streaming.go lines 281-303), textually identical to the completion
variant. -/
def chatCompletionStreamSentRequest (c : Client) (req : ChatCompletionRequest ρ) :
    ChatCompletionRequest ρ × Headers :=
  let req2 := { req with stream := some true }
  let h1 := newRequestHeaders c
  let h2 := headerSet h1 "Accept" "text/event-stream"
  let h3 := headerSet h2 "Cache-Control" "no-cache"
  (req2, h3)

/-- `CompletionChoice` (completion.go lines 134-147); the float-valued
`LogProbs` detail rides along opaquely in the type parameter. -/
structure CompletionChoice (π : Type) where
  logProbs : Option π
  finishReason : String
  nativeFinishReason : String
  text : String
  reasoning : Option String
  index : Int
  deriving DecidableEq

/-- `CompletionResponse` (completion.go lines 543-561). -/
structure CompletionResponse (π : Type) where
  id : String
  provider : String
  model : String
  object : String
  created : Int
  choices : List (CompletionChoice π)
  systemFingerprint : Option String
  usage : Option Usage
  deriving DecidableEq

/-- `ChatMessage` (chat.go lines 69-74). -/
structure ChatMessage where
  role : String
  content : String
  deriving DecidableEq

/-- `ChatChoice` (chat.go lines 89-96). -/
structure ChatChoice where
  message : ChatMessage
  index : Int
  finishReason : String
  deriving DecidableEq

/-- `ChatCompletionResponse` (chat.go lines 78-85). -/
structure ChatCompletionResponse where
  id : String
  choices : List ChatChoice
  usage : Usage
  deriving DecidableEq

/-- The Go zero value of `Usage`. -/
def zeroUsage : Usage := ⟨0, 0, 0, none, none⟩

/-- The Go zero value of `CompletionResponse` (the named return `response`
before anything is assigned to it). -/
def zeroCompletionResponse (π : Type) : CompletionResponse π :=
  ⟨"", "", "", "", 0, [], none, none⟩

/-- The Go zero value of `ChatCompletionResponse`. -/
def zeroChatCompletionResponse : ChatCompletionResponse := ⟨"", [], zeroUsage⟩

/-- Model of `Client.Completion` (completion.go lines 655-680): a request
whose `Stream` field is a non-nil true pointer is rejected with
`ErrCompletionStreamNotSupported` before any HTTP request is built;
otherwise the request is built and sent (`newRequest` + `sendRequest`,
abstracted as the single transport action `send`).  The third component
counts the HTTP requests constructed/sent. -/
def completionEntry (req : CompletionRequest ρ)
    (send : Unit → Except GoError (CompletionResponse π)) :
    CompletionResponse π × Option GoError × Nat :=
  match req.stream with
  | some true => (zeroCompletionResponse π, some errCompletionStreamNotSupported, 0)
  | _ =>
    match send () with
    | .error e => (zeroCompletionResponse π, some e, 1)
    | .ok r => (r, none, 1)

/-- Model of `Client.ChatCompletion` (chat.go lines 344-366), same shape as
the completion variant. -/
def chatCompletionEntry (req : ChatCompletionRequest ρ)
    (send : Unit → Except GoError ChatCompletionResponse) :
    ChatCompletionResponse × Option GoError × Nat :=
  match req.stream with
  | some true => (zeroChatCompletionResponse, some errCompletionStreamNotSupported, 0)
  | _ =>
    match send () with
    | .error e => (zeroChatCompletionResponse, some e, 1)
    | .ok r => (r, none, 1)

theorem recvPure_append (um : UnmarshalFn α) :
    ∀ (buf : List String) (acc : α) (tail : List String) (be : Option String),
    recvPure um acc (buf ++ tail) be =
      match recvBuf um acc buf with
      | .yield r rest => (r, rest ++ tail)
      | .more acc' => recvPure um acc' tail be := by
  intro buf
  induction buf with
  | nil => intro acc tail be; rfl
  | cons raw buf ih =>
    intro acc tail be
    simp only [List.cons_append, recvPure, recvBuf]
    by_cases h1 : goTrimSpace raw = "" ∨ goStartsWith (goTrimSpace raw) ":" = true
    · simp only [h1, if_pos]
      exact ih acc tail be
    · by_cases h2 : goStartsWith (goTrimSpace raw) "data: " = true
      · by_cases h3 : goStripPre (goTrimSpace raw) "data: " = "[DONE]"
        · simp [h1, h2, h3]
        · rcases hum : um (goStripPre (goTrimSpace raw) "data: ") acc with ⟨e, acc'⟩
          cases e <;> simp [h1, h2, h3, hum, ih]
      · simp [h1, h2, ih]

theorem recvBody_cons (um : UnmarshalFn α) (be : Option String)
    (acc : α) (b : List String) (more : List (List String)) :
    recvBody um be acc (b :: more) = recvAux um be false none acc b more := by
  cases h : recvBuf um acc b <;> simp [recvBody, recvAux, h]

theorem recvAux_open (um : UnmarshalFn α) (be : Option String) :
    ∀ (body : List (List String)) (buf : List String) (acc : α),
    (recvAux um be false none acc buf body).1
        = (recvPure um acc (buf ++ body.flatten) be).1
    ∧ (recvAux um be false none acc buf body).2.1
          ++ (recvAux um be false none acc buf body).2.2.1.flatten
        = (recvPure um acc (buf ++ body.flatten) be).2
    ∧ ((recvAux um be false none acc buf body).2.2.2 = none
        ∨ ((recvAux um be false none acc buf body).2.2.2 = some be
            ∧ (recvPure um acc (buf ++ body.flatten) be).2 = [])) := by
  intro body
  induction body with
  | nil =>
    intro buf acc
    rw [List.flatten_nil, recvPure_append um buf acc [] be]
    cases h : recvBuf um acc buf with
    | yield r rest => simp [recvAux, h]
    | more acc1 =>
      simp only [recvAux, h, Bool.false_eq_true, if_false, recvBody]
      cases be <;> simp [recvPure]
  | cons b more ih =>
    intro buf acc
    have hfl : buf ++ (b :: more).flatten = buf ++ (b ++ more.flatten) := by simp
    rw [hfl, recvPure_append um buf acc (b ++ more.flatten) be]
    cases h : recvBuf um acc buf with
    | yield r rest => simp [recvAux, h]
    | more acc1 =>
      simp only [recvAux, h, Bool.false_eq_true, if_false, recvBody_cons]
      have h2 := ih b acc1
      simpa [recvAux] using h2

theorem recvLoop_open (um : UnmarshalFn α) (acc : α) (s : ReaderState)
    (h : s.closed = false) (hsd : s.scanDone = none) :
    (recvLoop um acc s).1 = (recvPure um acc s.lines s.bodyErr).1
    ∧ (recvLoop um acc s).2.lines = (recvPure um acc s.lines s.bodyErr).2
    ∧ (recvLoop um acc s).2.bodyErr = s.bodyErr
    ∧ (recvLoop um acc s).2.closed = false
    ∧ ((recvLoop um acc s).2.scanDone = none
        ∨ ((recvLoop um acc s).2.scanDone = some s.bodyErr
            ∧ (recvPure um acc s.lines s.bodyErr).2 = [])) := by
  have h2 := recvAux_open um s.bodyErr s.body s.buffered acc
  simp only [recvLoop, ReaderState.lines, h, hsd]
  exact ⟨h2.1, h2.2.1, trivial, trivial, h2.2.2⟩

theorem recvNPure_nil_eof (um : UnmarshalFn α) (zero : α) :
    ∀ (k : Nat), recvNPure um zero k [] none = List.replicate k .eofSignal := by
  intro k
  induction k with
  | zero => rfl
  | succ k ih => simp [recvNPure, recvPure, ih, List.replicate_succ]

theorem recvNPure_nil_err (um : UnmarshalFn α) (zero : α) (e : String) :
    ∀ (n : Nat), recvNPure um zero n [] (some e)
      = List.replicate n (.ioErr (streamWrap e)) := by
  intro n
  induction n with
  | zero => rfl
  | succ n ih => simp [recvNPure, recvPure, ih, List.replicate_succ]

theorem recvN_sticky_eof (um : UnmarshalFn α) (zero : α) :
    ∀ (n : Nat) (t : ReaderState), t.scanDone = some none → t.buffered = [] →
    recvN um zero n t = List.replicate n .eofSignal := by
  intro n
  induction n with
  | zero => intro t _ _; rfl
  | succ n ih =>
    intro t h1 h2
    have hrl : recvLoop um zero t
        = (.eofSignal, ⟨[], t.body, t.bodyErr, t.closed, t.scanDone⟩) := by
      simp [recvLoop, recvAux, recvBuf, h1, h2]
    rw [recvN, hrl]
    simp only
    rw [ih ⟨[], t.body, t.bodyErr, t.closed, t.scanDone⟩ h1 rfl, List.replicate_succ]

theorem recvN_sticky_err (um : UnmarshalFn α) (zero : α) :
    ∀ (n : Nat) (t : ReaderState) (e : String),
    t.scanDone = some (some e) → t.buffered = [] →
    recvN um zero n t = List.replicate n (.ioErr (streamWrap e)) := by
  intro n
  induction n with
  | zero => intro t _ _ _; rfl
  | succ n ih =>
    intro t e h1 h2
    have hrl : recvLoop um zero t
        = (.ioErr (streamWrap e), ⟨[], t.body, t.bodyErr, t.closed, t.scanDone⟩) := by
      simp [recvLoop, recvAux, recvBuf, h1, h2]
    rw [recvN, hrl]
    simp only
    rw [ih ⟨[], t.body, t.bodyErr, t.closed, t.scanDone⟩ e h1 rfl, List.replicate_succ]

theorem recvN_pure (um : UnmarshalFn α) (zero : α) :
    ∀ (n : Nat) (s : ReaderState), s.closed = false → s.scanDone = none →
    recvN um zero n s = recvNPure um zero n s.lines s.bodyErr := by
  intro n
  induction n with
  | zero => intro s _ _; rfl
  | succ n ih =>
    intro s h hsd
    obtain ⟨h1, h2, h3, h4, h5⟩ := recvLoop_open um zero s h hsd
    rcases h5 with h5 | ⟨h5, h6⟩
    · simp only [recvN, recvNPure, h1, ih _ h4 h5, h2, h3]
    · have hlin : (recvLoop um zero s).2.lines = [] := by rw [h2, h6]
      have hbuf : (recvLoop um zero s).2.buffered = [] :=
        (List.append_eq_nil.mp hlin).1
      simp only [recvN, recvNPure, h1, h6]
      cases hbe : s.bodyErr with
      | none =>
        rw [hbe] at h5
        rw [recvN_sticky_eof um zero n _ h5 hbuf, recvNPure_nil_eof]
      | some e =>
        rw [hbe] at h5
        rw [recvN_sticky_err um zero n _ e h5 hbuf, recvNPure_nil_err]

theorem recvLoop_skip (um : UnmarshalFn α) (acc : α) (raw : String)
    (s : ReaderState)
    (h : goTrimSpace raw = "" ∨ goStartsWith (goTrimSpace raw) ":" = true
        ∨ goStartsWith (goTrimSpace raw) "data: " = false) :
    recvLoop um acc (consLine raw s) = recvLoop um acc s := by
  have hb : recvBuf um acc (raw :: s.buffered) = recvBuf um acc s.buffered := by
    rcases h with h | h | h
    · simp [recvBuf, h]
    · simp [recvBuf, h]
    · by_cases h1 : goTrimSpace raw = "" ∨ goStartsWith (goTrimSpace raw) ":" = true
      · simp [recvBuf, h1]
      · simp [recvBuf, h1, h]
  simp [recvLoop, recvAux, consLine, hb]

theorem goStartsWith_data_not_skip (l : String)
    (h : goStartsWith l "data: " = true) :
    ¬(l = "" ∨ goStartsWith l ":" = true) := by
  rcases l with ⟨ls⟩
  cases ls with
  | nil =>
    have h2 : startsWithChars [] (String.data "data: ") = true := h
    have h3 : String.data "data: " = 'd' :: String.data "ata: " := rfl
    rw [h3] at h2
    simp [startsWithChars] at h2
  | cons c cs =>
    have h2 : startsWithChars (c :: cs) ('d' :: String.data "ata: ") = true := h
    simp only [startsWithChars, Bool.and_eq_true, decide_eq_true_eq] at h2
    obtain ⟨hc, _⟩ := h2
    subst hc
    intro hor
    rcases hor with h1 | h1
    · have h4 := congrArg String.data h1
      simp at h4
    · have h5 : startsWithChars ('d' :: cs) [':'] = true := h1
      simp [startsWithChars] at h5

theorem recvLoop_done (um : UnmarshalFn α) (acc : α) (raw : String)
    (s : ReaderState)
    (h1 : goStartsWith (goTrimSpace raw) "data: " = true)
    (h2 : dataPayload raw = "[DONE]") :
    recvLoop um acc (consLine raw s) = (.eofSignal, s) := by
  have hns := goStartsWith_data_not_skip _ h1
  have hb : recvBuf um acc (raw :: s.buffered) = .yield .eofSignal s.buffered := by
    simp [recvBuf, hns, h1, dataPayload] at h2 ⊢
    simp [h2]
  simp [recvLoop, recvAux, consLine, hb]

theorem recvLoop_chunk (um : UnmarshalFn α) (acc : α) (raw : String)
    (s : ReaderState) (c : α)
    (h1 : goStartsWith (goTrimSpace raw) "data: " = true)
    (h2 : dataPayload raw ≠ "[DONE]")
    (h3 : um (dataPayload raw) acc = (none, c)) :
    recvLoop um acc (consLine raw s) = (.chunk c, s) := by
  have hns := goStartsWith_data_not_skip _ h1
  have hb : recvBuf um acc (raw :: s.buffered) = .yield (.chunk c) s.buffered := by
    simp [recvBuf, hns, h1, dataPayload] at h2 h3 ⊢
    simp [h2, h3]
  simp [recvLoop, recvAux, consLine, hb]

theorem recvLoop_badjson (um : UnmarshalFn α) (acc acc' : α) (raw : String)
    (s : ReaderState) (e : String)
    (h1 : goStartsWith (goTrimSpace raw) "data: " = true)
    (h2 : dataPayload raw ≠ "[DONE]")
    (h3 : um (dataPayload raw) acc = (some e, acc')) :
    recvLoop um acc (consLine raw s) = recvLoop um acc' s := by
  have hns := goStartsWith_data_not_skip _ h1
  have hb : recvBuf um acc (raw :: s.buffered) = recvBuf um acc' s.buffered := by
    simp [recvBuf, hns, h1, dataPayload] at h2 h3 ⊢
    simp [h2, h3]
  simp [recvLoop, recvAux, consLine, hb]

theorem recvPure_skip (um : UnmarshalFn α) (acc : α) (raw : String)
    (rest : List String) (be : Option String) (h : isSkipLine raw = true) :
    recvPure um acc (raw :: rest) be = recvPure um acc rest be := by
  simp only [isSkipLine, Bool.or_eq_true, decide_eq_true_eq,
    Bool.not_eq_true'] at h
  rcases h with (h | h) | h
  · simp [recvPure, h]
  · simp [recvPure, h]
  · by_cases h1 : goTrimSpace raw = "" ∨ goStartsWith (goTrimSpace raw) ":" = true
    · simp [recvPure, h1]
    · simp [recvPure, h1, h]

theorem recvPure_good (um : UnmarshalFn α) (acc : α) (raw : String)
    (rest : List String) (be : Option String)
    (h : isGoodData um acc raw = true) :
    recvPure um acc (raw :: rest) be
      = (.chunk (um (dataPayload raw) acc).2, rest) := by
  simp only [isGoodData, Bool.and_eq_true, Bool.not_eq_true', beq_eq_false_iff_ne,
    ne_eq, beq_iff_eq] at h
  obtain ⟨⟨h1, h2⟩, h3⟩ := h
  have hns := goStartsWith_data_not_skip _ h1
  rcases hum : um (dataPayload raw) acc with ⟨e, c⟩
  rw [hum] at h3
  simp only at h3
  subst h3
  simp only [dataPayload] at h2 hum
  simp [recvPure, hns, h1, h2, hum]

theorem recvPure_term (um : UnmarshalFn α) (acc : α) (rest : List String)
    (be : Option String) :
    recvPure um acc ("data: [DONE]" :: rest) be = (.eofSignal, rest) := by
  simp only [recvPure]
  rw [if_neg (by decide), if_pos (by decide), if_pos (by decide)]

theorem recvPure_all_skip (um : UnmarshalFn α) :
    ∀ (ls : List String) (acc : α) (be : Option String),
    (∀ l ∈ ls, isSkipLine l = true) →
    recvPure um acc ls be = recvPure um acc [] be := by
  intro ls
  induction ls with
  | nil => intro acc be _; rfl
  | cons l ls ih =>
    intro acc be h
    rw [recvPure_skip um acc l ls be (h l (by simp))]
    exact ih acc be fun x hx => h x (by simp [hx])

theorem isSkipLine_not_good (um : UnmarshalFn α) (zero : α) (raw : String)
    (h : isSkipLine raw = true) : isGoodData um zero raw = false := by
  by_contra hg
  rw [Bool.not_eq_false] at hg
  simp only [isGoodData, Bool.and_eq_true] at hg
  have hns := goStartsWith_data_not_skip _ hg.1.1
  simp only [isSkipLine, Bool.or_eq_true, decide_eq_true_eq,
    Bool.not_eq_true'] at h
  rcases h with (h | h) | h
  · exact hns (Or.inl h)
  · exact hns (Or.inr h)
  · rw [hg.1.1] at h; cases h

theorem recvNPure_cons_eq (um : UnmarshalFn α) (zero : α) (l : String)
    (X : List String) (be : Option String)
    (h : recvPure um zero (l :: X) be = recvPure um zero X be) :
    ∀ n, recvNPure um zero n (l :: X) be = recvNPure um zero n X be := by
  intro n
  cases n with
  | zero => rfl
  | succ n => simp only [recvNPure, h]

theorem recvNPure_stream (um : UnmarshalFn α) (zero : α) :
    ∀ (ls : List String),
    (∀ l ∈ ls, isSkipLine l = true ∨ isGoodData um zero l = true) →
    ∀ (m : Nat),
    recvNPure um zero ((expectedChunks um zero ls).length + 1 + m)
        (ls ++ ["data: [DONE]"]) none
      = (expectedChunks um zero ls).map RecvResult.chunk
        ++ List.replicate (m + 1) RecvResult.eofSignal := by
  intro ls
  induction ls with
  | nil =>
    intro _ m
    have hn : (expectedChunks um zero ([] : List String)).length + 1 + m = m + 1 := by
      simp [expectedChunks]; omega
    rw [hn]
    simp only [List.nil_append, recvNPure, recvPure_term]
    simp [recvNPure_nil_eof, expectedChunks, List.replicate_succ]
  | cons l ls ih =>
    intro h m
    have hl := h l (by simp)
    have hrest : ∀ x ∈ ls, isSkipLine x = true ∨ isGoodData um zero x = true :=
      fun x hx => h x (by simp [hx])
    rcases hl with hs | hg
    · have hgf := isSkipLine_not_good um zero l hs
      have hexp : expectedChunks um zero (l :: ls) = expectedChunks um zero ls := by
        simp [expectedChunks, hgf]
      rw [hexp, List.cons_append]
      rw [recvNPure_cons_eq um zero l (ls ++ ["data: [DONE]"]) none
        (recvPure_skip um zero l _ none hs)]
      exact ih hrest m
    · have hexp : expectedChunks um zero (l :: ls)
          = (um (dataPayload l) zero).2 :: expectedChunks um zero ls := by
        simp [expectedChunks, hg]
      have hn : (expectedChunks um zero (l :: ls)).length + 1 + m
          = ((expectedChunks um zero ls).length + 1 + m) + 1 := by
        rw [hexp]; simp; omega
      rw [hn, List.cons_append]
      simp only [recvNPure, recvPure_good um zero l _ none hg]
      rw [ih hrest m, hexp]
      simp

theorem recvN_closed (um : UnmarshalFn α) (zero : α) :
    ∀ (n : Nat) (t : ReaderState), t.closed = true → t.buffered = [] →
    t.scanDone = none →
    recvN um zero n t = List.replicate n (.ioErr (streamWrap closedBodyMsg)) := by
  intro n
  cases n with
  | zero => intro t _ _ _; rfl
  | succ n =>
    intro t h1 h2 h3
    have hrl : recvLoop um zero t
        = (.ioErr (streamWrap closedBodyMsg),
            ⟨[], t.body, t.bodyErr, t.closed, some (some closedBodyMsg)⟩) := by
      simp [recvLoop, recvAux, recvBuf, h1, h2, h3]
    rw [recvN, hrl]
    simp only
    rw [recvN_sticky_err um zero n
        ⟨[], t.body, t.bodyErr, t.closed, some (some closedBodyMsg)⟩
        closedBodyMsg rfl rfl, List.replicate_succ]

/-- C1: for every input stream made of well-formed `data:` JSON lines
(possibly interleaved with skippable lines) followed by a `data: [DONE]`
terminator line, and for every partition of that stream into underlying
reads, repeated `Recv` calls yield exactly one decoded chunk per well-formed
data line, in order, then `io.EOF` on the call that observes the terminator,
and every subsequent call continues to yield `io.EOF`. -/
theorem C1_chunks_in_order_then_eof (um : UnmarshalFn α) (zero : α)
    (P : List (List String)) (ls : List String)
    (hP : P.flatten = ls ++ ["data: [DONE]"])
    (h : ∀ l ∈ ls, isSkipLine l = true ∨ isGoodData um zero l = true)
    (m : Nat) :
    recvN um zero ((expectedChunks um zero ls).length + 1 + m) (freshReader P none)
      = (expectedChunks um zero ls).map RecvResult.chunk
        ++ List.replicate (m + 1) RecvResult.eofSignal := by
  rw [recvN_pure um zero _ (freshReader P none) rfl rfl]
  have hlines : (freshReader P none).lines = ls ++ ["data: [DONE]"] := by
    simp [freshReader, ReaderState.lines, hP]
  rw [hlines]
  exact recvNPure_stream um zero ls h m

theorem C1_witness :
    recvN um0 0 4
        (freshReader [["data: one"], [": ping", "data: two", "data: [DONE]"]] none)
      = [RecvResult.chunk 1, RecvResult.chunk 2,
          RecvResult.eofSignal, RecvResult.eofSignal] := by
  have h := C1_chunks_in_order_then_eof um0 0
    [["data: one"], [": ping", "data: two", "data: [DONE]"]]
    ["data: one", ": ping", "data: two"] (by decide) (by decide) 1
  have he : expectedChunks um0 0 ["data: one", ": ping", "data: two"] = [1, 2] := by
    decide
  rw [he] at h
  exact h

/-- C2 (counterexample): an HTTP status of 300 lies outside the claimed
success range 200-299, yet `CompletionStream` hands back a stream reader
instead of an error — the code only rejects statuses below 200 or at/above
400. -/
theorem C2_counterexample :
    completionStreamInit umErrNone
        ⟨"300 Multiple Choices", 300, .ok "", [], none⟩
      = .ok (freshReader [] none) := rfl

/-- C2 (amended): `CompletionStream` and `ChatCompletionStream` return the
error produced by the synchronous error-extraction logic `handleErrorResp`
exactly for statuses outside 200-399, and a fresh stream reader over the
response body exactly for statuses within 200-399. -/
theorem C2_status_range (um : UnmarshalFn ErrorResponse) (resp : ModelResponse) :
    ((resp.statusCode < 200 ∨ 400 ≤ resp.statusCode) →
      completionStreamInit um resp = .error (handleErrorResp um resp)
      ∧ chatCompletionStreamInit um resp = .error (handleErrorResp um resp))
    ∧ (200 ≤ resp.statusCode → resp.statusCode < 400 →
      completionStreamInit um resp = .ok (freshReader resp.streamReads resp.streamErr)
      ∧ chatCompletionStreamInit um resp
          = .ok (freshReader resp.streamReads resp.streamErr)) := by
  constructor
  · intro h
    constructor <;> simp [completionStreamInit, chatCompletionStreamInit, h]
  · intro h1 h2
    have h : ¬(resp.statusCode < 200 ∨ 400 ≤ resp.statusCode) := by omega
    constructor <;> simp [completionStreamInit, chatCompletionStreamInit, h]

theorem C2_witness :
    completionStreamInit umErrNone
        ⟨"500 Internal Server Error", 500, .ok "boom", [], none⟩
      = .error (handleErrorResp umErrNone
          ⟨"500 Internal Server Error", 500, .ok "boom", [], none⟩) :=
  ((C2_status_range umErrNone
    ⟨"500 Internal Server Error", 500, .ok "boom", [], none⟩).1 (by decide)).1

/-- C3 (counterexample): with both data lines delivered by a single
underlying read, the first `Recv` buffers the second line in the scanner;
after `Close`, the next `Recv` still returns that previously-buffered chunk
instead of an error. -/
theorem C3_counterexample :
    (recvLoop um0 0
        ((ReaderState.closeReader
          (recvLoop um0 0 (freshReader [["data: one", "data: two"]] none)).2).2)).1
      = RecvResult.chunk 2 := by decide

/-- C3 (amended): after `Close`, `Recv` never hangs or panics, but lines the
scanner buffered from the body before the close may still be returned as
chunks; every call that finds the buffer empty deterministically returns
the same non-chunk outcome on that call and every subsequent one, fixed by
the scanner's state at the close: the wrapped "read on closed response
body" error while the scanner had not yet finished, `io.EOF` if it had
already finished at a clean end of stream (the standard drain-then-Close
flow), and the originally recorded wrapped read error if it had finished on
a failing read. -/
theorem C3_closed_recv_errors (um : UnmarshalFn α) (zero : α) (s : ReaderState)
    (h : s.buffered = []) (n : Nat) :
    (s.scanDone = none →
      recvN um zero n (s.closeReader).2
        = List.replicate n (.ioErr (streamWrap closedBodyMsg)))
    ∧ (s.scanDone = some none →
      recvN um zero n (s.closeReader).2 = List.replicate n .eofSignal)
    ∧ (∀ e, s.scanDone = some (some e) →
      recvN um zero n (s.closeReader).2
        = List.replicate n (.ioErr (streamWrap e))) := by
  refine ⟨?_, ?_, ?_⟩
  · intro hsd
    exact recvN_closed um zero n (s.closeReader).2 rfl h hsd
  · intro hsd
    exact recvN_sticky_eof um zero n (s.closeReader).2 hsd h
  · intro e hsd
    exact recvN_sticky_err um zero n (s.closeReader).2 e hsd h

theorem C3_witness :
    recvN um0 0 2 ((freshReader [["data: one"]] none).closeReader).2
      = List.replicate 2 (.ioErr (streamWrap closedBodyMsg)) :=
  (C3_closed_recv_errors um0 0 (freshReader [["data: one"]] none) rfl 2).1 rfl

/-- C4: a `data:` line whose payload fails to decode is silently discarded
and scanning continues — the malformed frame contributes no chunk, does not
terminate the stream and surfaces no error (the call proceeds exactly as it
would from the next line), and a subsequent well-formed data line is still
yielded as a chunk. -/
theorem C4_malformed_payload_skipped (um : UnmarshalFn α) (acc acc' : α)
    (raw : String) (s : ReaderState) (e : String)
    (h1 : goStartsWith (goTrimSpace raw) "data: " = true)
    (h2 : dataPayload raw ≠ "[DONE]")
    (h3 : um (dataPayload raw) acc = (some e, acc')) :
    recvLoop um acc (consLine raw s) = recvLoop um acc' s
    ∧ ∀ (raw2 : String) (c : α),
        goStartsWith (goTrimSpace raw2) "data: " = true →
        dataPayload raw2 ≠ "[DONE]" →
        um (dataPayload raw2) acc' = (none, c) →
        recvLoop um acc (consLine raw (consLine raw2 s)) = (.chunk c, s) := by
  refine ⟨recvLoop_badjson um acc acc' raw s e h1 h2 h3, ?_⟩
  intro raw2 c g1 g2 g3
  rw [recvLoop_badjson um acc acc' raw (consLine raw2 s) e h1 h2 h3]
  exact recvLoop_chunk um acc' raw2 s c g1 g2 g3

theorem C4_witness :
    recvLoop um0 0 (consLine "data: oops" (consLine "data: two" (freshReader [] none)))
      = (RecvResult.chunk 2, freshReader [] none) :=
  (C4_malformed_payload_skipped um0 0 0 "data: oops" (freshReader [] none)
    "invalid character" (by decide) (by decide) (by decide)).2
    "data: two" 2 (by decide) (by decide) (by decide)

/-- C5: when the underlying byte stream ends — the `Recv` call that, with
only skippable lines left, no terminator seen and the scanner not yet
finished, observes the end of the body — `Recv` returns `io.EOF` if the
stream ended cleanly, and a wrapped I/O error — distinct from `io.EOF` — if
the underlying read failed. -/
theorem C5_stream_end (um : UnmarshalFn α) (zero : α) (s : ReaderState)
    (hcl : s.closed = false) (hsd : s.scanDone = none)
    (h : ∀ l ∈ s.lines, isSkipLine l = true) :
    (s.bodyErr = none → (recvLoop um zero s).1 = .eofSignal)
    ∧ (∀ e, s.bodyErr = some e →
        (recvLoop um zero s).1 = .ioErr (streamWrap e)
        ∧ (recvLoop um zero s).1 ≠ .eofSignal) := by
  have hsim := (recvLoop_open um zero s hcl hsd).1
  have hskip := recvPure_all_skip um s.lines zero s.bodyErr h
  constructor
  · intro hbe
    rw [hsim, hskip, hbe]
    rfl
  · intro e hbe
    rw [hsim, hskip, hbe]
    exact ⟨rfl, by simp [recvPure]⟩

theorem C5_witness :
    (recvLoop um0 0 (freshReader [[": ping"], [""]] none)).1 = RecvResult.eofSignal
    ∧ (recvLoop um0 0 (freshReader [["event: done"]] (some "connection reset"))).1
        = RecvResult.ioErr (streamWrap "connection reset") :=
  ⟨(C5_stream_end um0 0 (freshReader [[": ping"], [""]] none) rfl rfl (by decide)).1 rfl,
    ((C5_stream_end um0 0 (freshReader [["event: done"]] (some "connection reset"))
      rfl rfl (by decide)).2 "connection reset" rfl).1⟩

/-- C6: `Recv` trims each raw line and classifies it in priority order: an
empty line is skipped; a line beginning with `:` is skipped; a line
beginning with `data: ` has the prefix stripped, a payload equal to `[DONE]`
signals end-of-stream and any other payload is handed to the JSON decoder
(yielding a chunk on success, continuing on failure); every other non-empty
line — `event:`/`id:` fields, or `data:` without the trailing space — is
skipped without effect. -/
theorem C6_line_classification (um : UnmarshalFn α) (acc : α) (raw : String)
    (s : ReaderState) :
    (goTrimSpace raw = "" → recvLoop um acc (consLine raw s) = recvLoop um acc s)
    ∧ (goStartsWith (goTrimSpace raw) ":" = true →
        recvLoop um acc (consLine raw s) = recvLoop um acc s)
    ∧ (goStartsWith (goTrimSpace raw) "data: " = true → dataPayload raw = "[DONE]" →
        recvLoop um acc (consLine raw s) = (.eofSignal, s))
    ∧ (goStartsWith (goTrimSpace raw) "data: " = true → dataPayload raw ≠ "[DONE]" →
        ∀ c, um (dataPayload raw) acc = (none, c) →
          recvLoop um acc (consLine raw s) = (.chunk c, s))
    ∧ (goStartsWith (goTrimSpace raw) "data: " = true → dataPayload raw ≠ "[DONE]" →
        ∀ e acc', um (dataPayload raw) acc = (some e, acc') →
          recvLoop um acc (consLine raw s) = recvLoop um acc' s)
    ∧ (goTrimSpace raw ≠ "" → goStartsWith (goTrimSpace raw) ":" = false →
        goStartsWith (goTrimSpace raw) "data: " = false →
        recvLoop um acc (consLine raw s) = recvLoop um acc s) := by
  refine ⟨?_, ?_, ?_, ?_, ?_, ?_⟩
  · intro h; exact recvLoop_skip um acc raw s (Or.inl h)
  · intro h; exact recvLoop_skip um acc raw s (Or.inr (Or.inl h))
  · exact recvLoop_done um acc raw s
  · intro h1 h2 c h3; exact recvLoop_chunk um acc raw s c h1 h2 h3
  · intro h1 h2 e a h3; exact recvLoop_badjson um acc a raw s e h1 h2 h3
  · intro _ _ h3; exact recvLoop_skip um acc raw s (Or.inr (Or.inr h3))

theorem C6_witness :
    recvLoop um0 0 (consLine " data: [DONE] " (freshReader [["data: one"]] none))
      = (RecvResult.eofSignal, freshReader [["data: one"]] none) :=
  (C6_line_classification um0 0 " data: [DONE] "
    (freshReader [["data: one"]] none)).2.2.1 (by decide) (by decide)

/-- C7 (counterexample): a malformed `data:` payload inserted before a
well-formed one changes the chunk the call returns: per `encoding/json`
semantics the malformed document partially populates the shared `response`
variable (here its `id` field becomes "evil") before failing, and the later
successful decode of a document carrying only `model` merges into that
residue instead of a fresh zero value. -/
theorem C7_counterexample :
    (recvLoop um7 zeroCompletionStreamResponse
        (freshReader [["data: chunk-partial-bad", "data: chunk-model-only"]] none)).1
      ≠ (recvLoop um7 zeroCompletionStreamResponse
        (freshReader [["data: chunk-model-only"]] none)).1 := by decide

/-- C7 (amended): inserting blank lines or comment lines in front of a
reader's input changes nothing about the outcome of a `Recv` call — the
returned chunk is identical to the one produced when those skipped lines are
absent; a malformed `data:` payload, however, may leave partially-decoded
fields in the call's `response` accumulator and thereby alter a chunk
returned later in the same call (chunk state still never persists across
calls, since each call redeclares the accumulator). -/
theorem C7_comment_blank_insensitive (um : UnmarshalFn α) (acc : α) :
    ∀ (junk : List String), (∀ l ∈ junk, isCommentOrBlank l = true) →
    ∀ (s : ReaderState), recvLoop um acc (prependLines junk s) = recvLoop um acc s := by
  intro junk
  induction junk with
  | nil => intro _ s; rfl
  | cons l junk ih =>
    intro h s
    have hpre : prependLines (l :: junk) s = consLine l (prependLines junk s) := by
      simp [prependLines, consLine]
    rw [hpre]
    have hl := h l (by simp)
    simp only [isCommentOrBlank, Bool.or_eq_true, decide_eq_true_eq] at hl
    rcases hl with h1 | h1
    · rw [recvLoop_skip um acc l _ (Or.inl h1)]
      exact ih (fun x hx => h x (by simp [hx])) s
    · rw [recvLoop_skip um acc l _ (Or.inr (Or.inl h1))]
      exact ih (fun x hx => h x (by simp [hx])) s

theorem C7_witness :
    recvLoop um0 0 (prependLines ["", ": keepalive"] (freshReader [["data: one"]] none))
      = recvLoop um0 0 (freshReader [["data: one"]] none) :=
  C7_comment_blank_insensitive um0 0 ["", ": keepalive"] (by decide)
    (freshReader [["data: one"]] none)

theorem find_filter_self (k : String) :
    ∀ (h : Headers),
    (h.filter fun kv => !(kv.1 == k)).find? (fun kv => kv.1 == k) = none := by
  intro h
  induction h with
  | nil => rfl
  | cons kv t ih =>
    by_cases hk : (kv.1 == k) = true
    · simp [List.filter_cons, hk, ih]
    · simp only [Bool.not_eq_true] at hk
      simp [List.filter_cons, hk, List.find?_cons, ih]

theorem find_filter_ne (k k2 : String) (hne : (k2 == k) = false) :
    ∀ (h : Headers),
    (h.filter fun kv => !(kv.1 == k)).find? (fun kv => kv.1 == k2)
      = h.find? (fun kv => kv.1 == k2) := by
  intro h
  induction h with
  | nil => rfl
  | cons kv t ih =>
    by_cases h1 : (kv.1 == k) = true
    · have h2 : (kv.1 == k2) = false := by
        have hke : kv.1 = k := by simpa using h1
        subst hke
        by_cases h3 : (kv.1 == k2) = true
        · have : kv.1 = k2 := by simpa using h3
          subst this
          simp [beq_self_eq_true] at hne
        · simpa using h3
      simp [List.filter_cons, h1, List.find?_cons, h2, ih]
    · simp only [Bool.not_eq_true] at h1
      simp only [List.filter_cons, h1, Bool.not_false, if_pos, List.find?_cons]
      cases h2 : (kv.1 == k2) <;> simp [h2, ih]

theorem headerGet_set_self (h : Headers) (k v : String) :
    headerGet (headerSet h k v) k = v := by
  simp only [headerGet, headerSet]
  rw [List.find?_append, find_filter_self]
  simp [List.find?_cons]

theorem headerGet_set_ne (h : Headers) (k k2 v : String)
    (hne : (k2 == k) = false) :
    headerGet (headerSet h k v) k2 = headerGet h k2 := by
  simp only [headerGet, headerSet]
  rw [List.find?_append, find_filter_ne k k2 hne]
  cases h3 : h.find? (fun kv => kv.1 == k2) with
  | some kv => simp
  | none =>
    simp only [Option.none_orElse]
    have h4 : (k == k2) = false := by
      by_cases h5 : (k == k2) = true
      · have : k = k2 := by simpa using h5
        subst this
        simp [beq_self_eq_true] at hne
      · simpa using h5
    simp [List.find?_cons, h4]

/-- C8: whatever `Stream` value the caller supplied, the request value
`CompletionStream` / `ChatCompletionStream` actually serializes has `Stream`
set to true, and the outgoing HTTP request carries the headers
`Accept: text/event-stream` and `Cache-Control: no-cache`. -/
theorem C8_stream_forced_and_headers (c : Client) (ρ : Type)
    (req : CompletionRequest ρ) (creq : ChatCompletionRequest ρ) :
    (completionStreamSentRequest c req).1.stream = some true
    ∧ headerGet (completionStreamSentRequest c req).2 "Accept" = "text/event-stream"
    ∧ headerGet (completionStreamSentRequest c req).2 "Cache-Control" = "no-cache"
    ∧ (chatCompletionStreamSentRequest c creq).1.stream = some true
    ∧ headerGet (chatCompletionStreamSentRequest c creq).2 "Accept" = "text/event-stream"
    ∧ headerGet (chatCompletionStreamSentRequest c creq).2 "Cache-Control" = "no-cache" := by
  refine ⟨rfl, ?_, ?_, rfl, ?_, ?_⟩ <;>
    simp only [completionStreamSentRequest, chatCompletionStreamSentRequest]
  · rw [headerGet_set_ne _ _ _ _ (by decide), headerGet_set_self]
  · rw [headerGet_set_self]
  · rw [headerGet_set_ne _ _ _ _ (by decide), headerGet_set_self]
  · rw [headerGet_set_self]

/-- C9: for a non-success response whose body was read fully,
`handleErrorResp` parses the bytes as the envelope with an `error` object:
a successful parse yielding a non-nil error object produces that structured
`APIError`; a failed parse, or a parse yielding no error object, produces a
generic `RequestError` carrying the raw HTTP status, status code and body
bytes instead. -/
theorem C9_error_classification (um : UnmarshalFn ErrorResponse)
    (resp : ModelResponse) (body : String) (h : resp.readAll = .ok body) :
    (∀ a : APIError, um body ⟨none⟩ = (none, ⟨some a⟩) →
        handleErrorResp um resp = .apiErr a)
    ∧ ((um body ⟨none⟩).1 ≠ none ∨ (um body ⟨none⟩).2.error = none →
        ∃ e, handleErrorResp um resp
          = .reqErr ⟨resp.status, resp.statusCode, e, body⟩) := by
  constructor
  · intro a ha
    simp [handleErrorResp, h, ha]
  · intro hcase
    rcases hum : um body ⟨none⟩ with ⟨eopt, errRes⟩
    rw [hum] at hcase
    cases eopt with
    | none =>
      rcases errRes with ⟨eo⟩
      cases eo with
      | none => exact ⟨none, by simp [handleErrorResp, h, hum]⟩
      | some a => simp at hcase
    | some e =>
      rcases errRes with ⟨eo⟩
      cases eo with
      | none => exact ⟨some (.inl e), by simp [handleErrorResp, h, hum]⟩
      | some a => exact ⟨some (.inr a), by simp [handleErrorResp, h, hum]⟩

theorem C9_witness :
    handleErrorResp umErrOk ⟨"402 Payment Required", 402, .ok "err-body", [], none⟩
      = .apiErr ⟨402, "Insufficient credits", []⟩ :=
  (C9_error_classification umErrOk
    ⟨"402 Payment Required", 402, .ok "err-body", [], none⟩ "err-body" rfl).1
    ⟨402, "Insufficient credits", []⟩ (by decide)

/-- C10: a request whose `Stream` field is a non-nil true pointer makes the
synchronous `Completion` and `ChatCompletion` entry points return the
sentinel `ErrCompletionStreamNotSupported` immediately — zero HTTP requests
constructed or sent (for every transport behaviour) — with the response left
zero-valued. -/
theorem C10_sync_rejects_stream (ρ π : Type) (req : CompletionRequest ρ)
    (send : Unit → Except GoError (CompletionResponse π))
    (creq : ChatCompletionRequest ρ)
    (csend : Unit → Except GoError ChatCompletionResponse)
    (h1 : req.stream = some true) (h2 : creq.stream = some true) :
    completionEntry req send
      = (zeroCompletionResponse π, some errCompletionStreamNotSupported, 0)
    ∧ chatCompletionEntry creq csend
      = (zeroChatCompletionResponse, some errCompletionStreamNotSupported, 0) := by
  constructor
  · simp [completionEntry, h1]
  · simp [chatCompletionEntry, h2]

theorem C10_witness :
    completionEntry (⟨some true, ()⟩ : CompletionRequest Unit)
        (fun _ => Except.ok (zeroCompletionResponse Unit))
      = (zeroCompletionResponse Unit, some errCompletionStreamNotSupported, 0)
    ∧ chatCompletionEntry (⟨some true, ()⟩ : ChatCompletionRequest Unit)
        (fun _ => Except.ok zeroChatCompletionResponse)
      = (zeroChatCompletionResponse, some errCompletionStreamNotSupported, 0) :=
  C10_sync_rejects_stream Unit Unit ⟨some true, ()⟩
    (fun _ => Except.ok (zeroCompletionResponse Unit)) ⟨some true, ()⟩
    (fun _ => Except.ok zeroChatCompletionResponse) rfl rfl

end Gopenrouter
